import Mathlib

/-
Verification of the library_catalog service: a shallow embedding of the
storage backends (app/crud/book.py, app/crud/file_book.py,
app/crud/jsonbin_book.py), the Open Library lookup client
(app/integrations/open_library.py, app/interface/base_api_client.py) and
the enrichment merge policy, together with theorems checking the
specification claims against the embedded code.

Conventions of the embedding:
- Python ints are Int, Python strings are String; the float-valued rating
  is only ever copied, never computed with, so Rat stands in for it.
- A JSON object with a fixed key set is a Lean structure whose fields are
  Option-valued where the JSON value may be null; where key PRESENCE in a
  dict matters (pydantic model_dump with or without exclude_unset, the
  check for the key year in BookRepository.create), an outer Option layer
  records presence.
- Outbound HTTP requests are parameters of the embedded functions: the
  outcome of each request is passed in, since the network itself cannot
  be embedded. BaseApiClient takes care to return None (not raise) on
  aiohttp.ClientError and on any other exception inside the request, so a
  request outcome is an Option of the parsed JSON, none standing for a
  network or parse failure as well as for an empty body.
-/

namespace LibraryCatalog

/-- Truthiness of an optional Python string: None and the empty string are
falsy, every other string is truthy. -/
def strTruthy : Option String → Bool
  | none => false
  | some s => !(s == "")

/-- Truthiness of an optional Python int: None and 0 are falsy. -/
def intTruthy : Option Int → Bool
  | none => false
  | some n => !(n == 0)

/-- The pydantic BookCreate schema (app/schemas/book.py): all nine fields,
with available defaulting to true and the three optional fields to None. -/
structure BookFields where
  title : String
  author : String
  year : Int
  genre : String
  pages : Int
  available : Bool := true
  cover_url : Option String := none
  description : Option String := none
  rating : Option Rat := none
deriving Repr, DecidableEq

/-- A stored record: the JSON object kept in the file array or in the bin
document (and a row of the books table): the key id plus the nine book
fields. Every non-id field is Option-valued because a JSON value may be
null (an update payload may explicitly set a field to None). -/
structure BookItem where
  id : Int
  title : Option String := none
  author : Option String := none
  year : Option Int := none
  genre : Option String := none
  pages : Option Int := none
  available : Option Bool := none
  cover_url : Option String := none
  description : Option String := none
  rating : Option Rat := none
deriving Repr, DecidableEq

/-- The pydantic BookUpdate schema under model_dump(exclude_unset=True):
for each field, the outer Option records whether the caller set the field
at all (none = not in the dump), the inner Option is the value, which may
itself be an explicit None. -/
structure BookUpdate where
  title : Option (Option String) := none
  author : Option (Option String) := none
  year : Option (Option Int) := none
  genre : Option (Option String) := none
  pages : Option (Option Int) := none
  available : Option (Option Bool) := none
  cover_url : Option (Option String) := none
  description : Option (Option String) := none
  rating : Option (Option Rat) := none
deriving Repr, DecidableEq

/-- Building the new item in create: the dict new_item =
(obj_in.model_dump() merged with id = new_id). Required fields of
BookCreate are plain values, so they land as non-null. -/
def BookFields.toItem (f : BookFields) (idv : Int) : BookItem :=
  { id := idv
    title := some f.title
    author := some f.author
    year := some f.year
    genre := some f.genre
    pages := some f.pages
    available := some f.available
    cover_url := f.cover_url
    description := f.description
    rating := f.rating }

/-- The dict update updated_item = (item merged with
obj_in.model_dump(exclude_unset=True)): a key present in the dump
overwrites, every other key keeps the stored value; id is not a
BookUpdate field so it is never in the dump. -/
def BookItem.applyUpdate (item : BookItem) (u : BookUpdate) : BookItem :=
  { id := item.id
    title := u.title.getD item.title
    author := u.author.getD item.author
    year := u.year.getD item.year
    genre := u.genre.getD item.genre
    pages := u.pages.getD item.pages
    available := u.available.getD item.available
    cover_url := u.cover_url.getD item.cover_url
    description := u.description.getD item.description
    rating := u.rating.getD item.rating }

/-- Python max over the generator (item[id] for item in data), only
evaluated on non-empty data; on [] we return 0, a value the embedded
create never consults because it guards with the emptiness test first. -/
def maxId : List BookItem → Int
  | [] => 0
  | item :: rest => rest.foldl (fun m it => max m it.id) item.id

namespace FileCRUDBase

/-- FileCRUDBase.get: next((item for item in data if item[id] == id), None). -/
def get (data : List BookItem) (idv : Int) : Option BookItem :=
  data.find? (fun item => item.id == idv)

/-- FileCRUDBase.get_multi: the slice data[skip : skip + limit]. -/
def get_multi (data : List BookItem) (skip limit : Nat) : List BookItem :=
  (data.drop skip).take limit

/-- FileCRUDBase.create: new_id = max(item[id] for item in data) + 1 if
data else 1; the new item is appended and the whole array rewritten.
Returns the created record together with the new file contents. -/
def create (data : List BookItem) (obj_in : BookFields) : BookItem × List BookItem :=
  let new_id : Int := if data.isEmpty then 1 else maxId data + 1
  let new_item := obj_in.toItem new_id
  (new_item, data ++ [new_item])

/-- FileCRUDBase.update: scan for the first item with matching id, replace
it by the merged dict and rewrite the file; if no item matches, return
None without writing. Result is (returned value, file contents after). -/
def update (data : List BookItem) (idv : Int) (u : BookUpdate) :
    Option BookItem × List BookItem :=
  match data with
  | [] => (none, [])
  | item :: rest =>
    if item.id = idv then
      (some (item.applyUpdate u), item.applyUpdate u :: rest)
    else
      let r := update rest idv u
      (r.1, item :: r.2)

/-- FileCRUDBase.delete: pop the first item with matching id and rewrite
the file; if no item matches, return None without writing. -/
def delete (data : List BookItem) (idv : Int) :
    Option BookItem × List BookItem :=
  match data with
  | [] => (none, [])
  | item :: rest =>
    if item.id = idv then
      (some item, rest)
    else
      let r := delete rest idv
      (r.1, item :: r.2)

end FileCRUDBase

/-- The remote bin document: top-level shape is an object whose key
record holds the array of book items (jsonbin_book.py reads
data.get("record", []) and PUTs the updated array back). -/
structure BinDoc where
  record : List BookItem
deriving Repr, DecidableEq

namespace JsonBinCRUDBase

/-- JsonBinCRUDBase.get: fetch the document, scan its record array. -/
def get (doc : BinDoc) (idv : Int) : Option BookItem :=
  doc.record.find? (fun item => item.id == idv)

/-- JsonBinCRUDBase.get_multi: the slice records[skip : skip + limit]. -/
def get_multi (doc : BinDoc) (skip limit : Nat) : List BookItem :=
  (doc.record.drop skip).take limit

/-- JsonBinCRUDBase.create: same id assignment and append as the file
variant, with the mutated array PUT back as the new document. -/
def create (doc : BinDoc) (obj_in : BookFields) : BookItem × BinDoc :=
  let records := doc.record
  let new_id : Int := if records.isEmpty then 1 else maxId records + 1
  let new_item := obj_in.toItem new_id
  (new_item, ⟨records ++ [new_item]⟩)

/-- JsonBinCRUDBase.update: same first-match merge-and-replace as the file
variant, PUT back on success, no PUT when the id is absent. -/
def update (doc : BinDoc) (idv : Int) (u : BookUpdate) :
    Option BookItem × BinDoc :=
  let r := FileCRUDBase.update doc.record idv u
  (r.1, ⟨r.2⟩)

/-- JsonBinCRUDBase.delete: same first-match pop as the file variant. -/
def delete (doc : BinDoc) (idv : Int) : Option BookItem × BinDoc :=
  let r := FileCRUDBase.delete doc.record idv
  (r.1, ⟨r.2⟩)

end JsonBinCRUDBase

/-- The enrichment record (app/schemas/open.py OpenLibraryBookInfo): all
fields optional, defaulting to None. -/
structure OpenLibraryBookInfo where
  cover_url : Option String := none
  description : Option String := none
  rating : Option Rat := none
  first_publish_year : Option Int := none
deriving Repr, DecidableEq

/-- One summary document of the search response (docs[0] is the only one
consulted). A field is none when the key is absent from the JSON. -/
structure SearchDoc where
  first_publish_year : Option Int := none
  cover_i : Option Int := none
  key : Option String := none
deriving Repr, DecidableEq

/-- The parsed body of the search request: the docs array. -/
structure SearchResponse where
  docs : List SearchDoc
deriving Repr, DecidableEq

/-- A value sitting under the description key of a work-details document:
a plain string, a mapping carrying a value key, or anything else. -/
inductive DescriptionVal where
  | plainStr : String → DescriptionVal
  | withValue : String → DescriptionVal
  | otherVal : DescriptionVal
deriving Repr, DecidableEq

/-- The parsed body of the work-details request, restricted to the keys
_process_details consults: the description key when present, and the
average inside the rating mapping when that shape is present (the inner
Option is the average value, which may be an explicit null). -/
structure WorkDetails where
  description : Option DescriptionVal := none
  ratingAverage : Option (Option Rat) := none
deriving Repr, DecidableEq

/-- OpenLibraryClient._process_details: a Python match statement, so ONLY
THE FIRST matching case runs: a string description, else a mapping
description carrying value, else the rating average (guarded non-None),
else nothing. -/
def processDetails (details : WorkDetails) (result : OpenLibraryBookInfo) :
    OpenLibraryBookInfo :=
  match details.description with
  | some (DescriptionVal.plainStr desc) => { result with description := some desc }
  | some (DescriptionVal.withValue val) => { result with description := some val }
  | _ =>
    match details.ratingAverage with
    | some (some rating) => { result with rating := some rating }
    | _ => result

namespace OpenLibraryClient

/-- OpenLibraryClient.search, with the outcomes of the two outbound
requests passed in: searchResp is what _make_request returned for the
search call (none = network or parse failure, per BaseApiClient which
catches every exception and returns None), detailsResp is what
get_details would hand back for the details call (none = failure or
empty body). After the two unconditional key-presence extractions, the
Python match statement runs AT MOST ONE of its three cases: the
first_publish_year case, else the cover_i case, else the key case, and
only the key case issues the details request. -/
def search (cover_base : String) (searchResp : Option SearchResponse)
    (detailsResp : Option WorkDetails) : Option OpenLibraryBookInfo :=
  match searchResp with
  | none => none
  | some data =>
    match data.docs with
    | [] => none
    | book_data :: _ =>
      let result : OpenLibraryBookInfo := {}
      let result := if book_data.first_publish_year.isSome then
          { result with first_publish_year := book_data.first_publish_year }
        else result
      let result := match book_data.cover_i with
        | some cover_id =>
            let url := cover_base ++ "/id/" ++ toString cover_id ++ "-M.jpg"
            { result with cover_url := some url }
        | none => result
      match book_data.first_publish_year with
      | some year => some { result with first_publish_year := some year }
      | none =>
        match book_data.cover_i with
        | some cover_id =>
            let url := cover_base ++ "/id/" ++ toString cover_id ++ "-M.jpg"
            some { result with cover_url := some url }
        | none =>
          match book_data.key with
          | some _ =>
            match detailsResp with
            | some details => some (processDetails details result)
            | none => some result
          | none => some result

end OpenLibraryClient

/-- The dict create_data built in BookRepository.create and in
create_with_external_data: obj_in.model_dump() emits all nine keys, and
the merge steps only ever assign or test keys, so the sole presence
question the code asks — whether the key year is in the dict — is
recorded by the outer Option on year (none = key absent). -/
structure CreateData where
  title : String
  author : String
  year : Option Int
  genre : String
  pages : Int
  available : Bool
  cover_url : Option String
  description : Option String
  rating : Option Rat
deriving Repr, DecidableEq

/-- obj_in.model_dump() without exclude_unset: every key is emitted, in
particular the key year is always present. -/
def model_dump (f : BookFields) : CreateData :=
  { title := f.title
    author := f.author
    year := some f.year
    genre := f.genre
    pages := f.pages
    available := f.available
    cover_url := f.cover_url
    description := f.description
    rating := f.rating }

/-- The merge block of BookRepository.create (lines 136-144): inside
if open_lib_info (a pydantic object is always truthy, None is falsy),
cover_url and description are overwritten when truthy, rating when not
None, and year is overwritten when first_publish_year is truthy AND the
key year is not in create_data. -/
def mergeCreate (create_data : CreateData) (open_lib_info : Option OpenLibraryBookInfo) :
    CreateData :=
  match open_lib_info with
  | none => create_data
  | some info =>
    let d := if strTruthy info.cover_url then
        { create_data with cover_url := info.cover_url } else create_data
    let d := if strTruthy info.description then
        { d with description := info.description } else d
    let d := if info.rating.isSome then { d with rating := info.rating } else d
    if intTruthy info.first_publish_year && d.year.isNone then
      { d with year := info.first_publish_year }
    else d

/-- The merge block of BookRepository.create_with_external_data (lines
294-298): inside if external_info, only cover_url and description are
overwritten (when truthy); rating and year are never touched here. -/
def mergeExternal (create_data : CreateData) (external_info : Option OpenLibraryBookInfo) :
    CreateData :=
  match external_info with
  | none => create_data
  | some info =>
    let d := if strTruthy info.cover_url then
        { create_data with cover_url := info.cover_url } else create_data
    if strTruthy info.description then { d with description := info.description } else d

/-- Instantiating self.model(**create_data): the row takes the dict
values, the year column staying null exactly when the key is absent. -/
def CreateData.toItem (d : CreateData) (idv : Int) : BookItem :=
  { id := idv
    title := some d.title
    author := some d.author
    year := d.year
    genre := some d.genre
    pages := some d.pages
    available := some d.available
    cover_url := d.cover_url
    description := d.description
    rating := d.rating }

/-- The relational store: rows plus the auto-increment counter the
database assigns primary keys from. -/
structure RelationalState where
  nextId : Int
  rows : List BookItem
deriving Repr, DecidableEq

/-- Outcome of one api_client.search call as the repository sees it:
error models an exception escaping search (which the except blocks turn
into rollback plus re-raise), ok none models the not-found result, ok
(some info) a found enrichment record. -/
def ClientOutcome := Except Unit (Option OpenLibraryBookInfo)

namespace BookRepository

/-- BookRepository.create: UNCONDITIONALLY awaits
api_client.search(obj_in.title, obj_in.author) first; an exception from
the lookup hits the except block, the transaction is rolled back (state
unchanged) and the exception re-raised; otherwise the merged dict is
persisted under the next auto-increment id and committed. -/
def create (client : String → String → ClientOutcome) (s : RelationalState)
    (obj_in : BookFields) : Except Unit BookItem × RelationalState :=
  match client obj_in.title obj_in.author with
  | Except.error e => (Except.error e, s)
  | Except.ok open_lib_info =>
    let create_data := mergeCreate (model_dump obj_in) open_lib_info
    let db_obj := create_data.toItem s.nextId
    (Except.ok db_obj, ⟨s.nextId + 1, s.rows ++ [db_obj]⟩)

/-- BookRepository.create_with_external_data: when fetch_external, the
lookup runs and an exception from it rolls back (state unchanged) and
re-raises; a not-found (None) or found result feeds the cover/description
merge; when not fetch_external, the dump is persisted as is. -/
def create_with_external_data (client : String → String → ClientOutcome)
    (s : RelationalState) (obj_in : BookFields) (fetch_external : Bool) :
    Except Unit BookItem × RelationalState :=
  let create_data := model_dump obj_in
  if fetch_external then
    match client obj_in.title obj_in.author with
    | Except.error e => (Except.error e, s)
    | Except.ok external_info =>
      let d := mergeExternal create_data external_info
      let db_obj := d.toItem s.nextId
      (Except.ok db_obj, ⟨s.nextId + 1, s.rows ++ [db_obj]⟩)
  else
    let db_obj := create_data.toItem s.nextId
    (Except.ok db_obj, ⟨s.nextId + 1, s.rows ++ [db_obj]⟩)

end BookRepository

/-- Folding a sequence of creates over a file state, one create per
element of the field-set list (the record set after each create feeds the
next one). -/
def create_many (data : List BookItem) (fs : List BookFields) : List BookItem :=
  fs.foldl (fun d f => (FileCRUDBase.create d f).2) data

/-- The same sequence of creates against the bin document. -/
def create_many_bin (doc : BinDoc) (fs : List BookFields) : BinDoc :=
  fs.foldl (fun d f => (JsonBinCRUDBase.create d f).2) doc

/-- The id sequence 1, 2, ..., k. -/
def rangeIds (k : Nat) : List Int := (List.range k).map (fun n => (n : Int) + 1)

/- Helper lemmas about maxId and freshness of created ids. -/

theorem le_foldl_max (l : List BookItem) (b : Int) :
    b ≤ l.foldl (fun m it => max m it.id) b := by
  induction l generalizing b with
  | nil => simp
  | cons x xs ih => exact le_trans (le_max_left b x.id) (ih (max b x.id))

theorem mem_le_foldl_max (l : List BookItem) :
    ∀ (b : Int) (it : BookItem), it ∈ l →
      it.id ≤ l.foldl (fun m x => max m x.id) b := by
  induction l with
  | nil => intro b it h; cases h
  | cons x xs ih =>
    intro b it h
    rcases List.mem_cons.mp h with rfl | hmem
    · exact le_trans (le_max_right b it.id) (le_foldl_max xs (max b it.id))
    · exact ih (max b x.id) it hmem

theorem mem_le_maxId (data : List BookItem) (it : BookItem) (h : it ∈ data) :
    it.id ≤ maxId data := by
  cases data with
  | nil => cases h
  | cons x xs =>
    rcases List.mem_cons.mp h with rfl | hmem
    · exact le_foldl_max xs it.id
    · exact mem_le_foldl_max xs x.id it hmem

theorem create_id_eq (data : List BookItem) (f : BookFields) :
    (FileCRUDBase.create data f).1.id =
      if data.isEmpty then 1 else maxId data + 1 := rfl

theorem create_id_fresh (data : List BookItem) (f : BookFields) (it : BookItem)
    (h : it ∈ data) : it.id < (FileCRUDBase.create data f).1.id := by
  rw [create_id_eq]
  have hne : data.isEmpty = false := by
    cases data with
    | nil => cases h
    | cons x xs => rfl
  rw [hne]
  simp only [Bool.false_eq_true, if_false]
  exact lt_of_le_of_lt (mem_le_maxId data it h) (lt_add_one _)

theorem maxId_append_one (data : List BookItem) (it : BookItem) :
    maxId (data ++ [it]) = if data.isEmpty then it.id else max (maxId data) it.id := by
  cases data with
  | nil => simp [maxId]
  | cons x xs =>
    show maxId (x :: (xs ++ [it])) = max (maxId (x :: xs)) it.id
    show (xs ++ [it]).foldl (fun m y => max m y.id) x.id = _
    rw [List.foldl_append]
    rfl

theorem jsonbin_create_eq (doc : BinDoc) (f : BookFields) :
    JsonBinCRUDBase.create doc f =
      ((FileCRUDBase.create doc.record f).1, ⟨(FileCRUDBase.create doc.record f).2⟩) := rfl

theorem rangeIds_succ (k : Nat) :
    rangeIds (k + 1) = rangeIds k ++ [(k : Int) + 1] := by
  simp [rangeIds, List.range_succ]

/-- The state invariant after k creates from empty: the stored ids are
exactly 1..k and maxId reports k (when k is positive). -/
def IdsUpTo (data : List BookItem) (k : Nat) : Prop :=
  data.map (fun it => it.id) = rangeIds k ∧ (k ≠ 0 → maxId data = (k : Int))

theorem idsUpTo_zero : IdsUpTo [] 0 := by
  constructor
  · rfl
  · intro h; cases h rfl

theorem idsUpTo_empty (data : List BookItem) (h : IdsUpTo data 0) : data = [] := by
  have h1 := h.1
  cases data with
  | nil => rfl
  | cons x xs => simp [rangeIds] at h1

theorem idsUpTo_nonempty (data : List BookItem) (n : Nat)
    (h : IdsUpTo data (n + 1)) : data.isEmpty = false := by
  cases data with
  | nil =>
    have h1 := h.1
    rw [rangeIds_succ] at h1
    simp at h1
  | cons x xs => rfl

theorem idsUpTo_step (data : List BookItem) (k : Nat) (f : BookFields)
    (h : IdsUpTo data k) :
    (FileCRUDBase.create data f).1.id = (k : Int) + 1 ∧
    IdsUpTo (FileCRUDBase.create data f).2 (k + 1) := by
  cases k with
  | zero =>
    have hdata : data = [] := idsUpTo_empty data h
    subst hdata
    refine ⟨?_, ?_, ?_⟩
    · show (1 : Int) = ((0 : Nat) : Int) + 1
      norm_num
    · show [f.toItem 1].map (fun it => it.id) = rangeIds 1
      show [(1 : Int)] = rangeIds 1
      decide
    · intro _
      show maxId [f.toItem 1] = ((1 : Nat) : Int)
      show (1 : Int) = ((1 : Nat) : Int)
      norm_num
  | succ n =>
    have hne : data.isEmpty = false := idsUpTo_nonempty data n h
    have hmax : maxId data = ((n + 1 : Nat) : Int) := h.2 (Nat.succ_ne_zero n)
    have hid : (FileCRUDBase.create data f).1.id = ((n + 1 : Nat) : Int) + 1 := by
      rw [create_id_eq, hne]
      simp [hmax]
    refine ⟨hid, ?_, ?_⟩
    · show (data ++ [f.toItem _]).map (fun it => it.id) = rangeIds (n + 1 + 1)
      rw [List.map_append, h.1, rangeIds_succ (n + 1)]
      simp only [List.map_cons, List.map_nil]
      exact congrArg (fun l => rangeIds (n + 1) ++ l) (congrArg (fun z => [z]) hid)
    · intro _
      show maxId (data ++ [f.toItem _]) = ((n + 1 + 1 : Nat) : Int)
      rw [maxId_append_one, hne]
      simp only [Bool.false_eq_true, if_false]
      show max (maxId data) (maxId data + 1) = ((n + 1 + 1 : Nat) : Int)
      rw [hmax, max_eq_right (le_of_lt (lt_add_one _))]
      push_cast
      ring

theorem create_many_ids (fs : List BookFields) (data : List BookItem) (k : Nat)
    (h : IdsUpTo data k) : IdsUpTo (create_many data fs) (k + fs.length) := by
  induction fs generalizing data k with
  | nil => simpa using h
  | cons f rest ih =>
    have step := (idsUpTo_step data k f h).2
    have := ih (FileCRUDBase.create data f).2 (k + 1) step
    show IdsUpTo (create_many (FileCRUDBase.create data f).2 rest) _
    rw [List.length_cons]
    have harith : k + 1 + rest.length = k + (rest.length + 1) := by ring
    rw [← harith]
    exact this

theorem create_many_bin_record (doc : BinDoc) (fs : List BookFields) :
    (create_many_bin doc fs).record = create_many doc.record fs := by
  induction fs generalizing doc with
  | nil => rfl
  | cons f rest ih => exact ih ⟨(FileCRUDBase.create doc.record f).2⟩

/-- C7: For every create on a File or RemoteBin backend, the assigned id
equals max(existing ids) + 1, or 1 when the record set is empty;
consequently, creating N records in sequence against an empty File or
RemoteBin backend yields ids 1..N with no gaps or repeats. -/
theorem C7_sequential_id_assignment (fs : List BookFields)
    (data : List BookItem) (doc : BinDoc) (f : BookFields) :
    ((FileCRUDBase.create data f).1.id = if data.isEmpty then 1 else maxId data + 1) ∧
    ((JsonBinCRUDBase.create doc f).1.id =
        if doc.record.isEmpty then 1 else maxId doc.record + 1) ∧
    (create_many [] fs).map (fun it => it.id) = rangeIds fs.length ∧
    (create_many_bin ⟨[]⟩ fs).record.map (fun it => it.id) = rangeIds fs.length := by
  have hids := (create_many_ids fs [] 0 idsUpTo_zero).1
  rw [Nat.zero_add] at hids
  refine ⟨rfl, rfl, hids, ?_⟩
  rw [create_many_bin_record]
  exact hids

/-- Concrete field set used to drive counterexamples and witnesses. -/
def sampleFields : BookFields :=
  { title := "T", author := "A", year := 2000, genre := "G", pages := 100 }

/-- File state after creating two records from empty: ids 1 and 2. -/
def twoRecordState : List BookItem :=
  (FileCRUDBase.create (FileCRUDBase.create [] sampleFields).2 sampleFields).2

/-- C2 counterexample: id 2 is assigned by the second create, the record
with id 2 is then deleted, and the very next create assigns id 2 again —
an id IS reused after deletion, refuting the claim. -/
theorem C2_counterexample :
    (FileCRUDBase.create (FileCRUDBase.create [] sampleFields).2 sampleFields).1.id = 2 ∧
    (FileCRUDBase.delete twoRecordState 2).1 = some (sampleFields.toItem 2) ∧
    (FileCRUDBase.create (FileCRUDBase.delete twoRecordState 2).2 sampleFields).1.id = 2 := by
  refine ⟨rfl, ?_, rfl⟩
  rfl

/-- C2 amended: within File and RemoteBin backends the created id is
strictly greater than every id currently stored, so ids are unique inside
the record set at any time; but an id freed by deleting the record with
the maximal id IS handed out again by the next create (id reuse after
deletion does happen). -/
theorem C2_ids_unique_amended (data : List BookItem) (doc : BinDoc) (f : BookFields) :
    (∀ it, it ∈ data → it.id < (FileCRUDBase.create data f).1.id) ∧
    (∀ it, it ∈ doc.record → it.id < (JsonBinCRUDBase.create doc f).1.id) := by
  constructor
  · intro it h; exact create_id_fresh data f it h
  · intro it h
    rw [jsonbin_create_eq]
    exact create_id_fresh doc.record f it h

/-- Witness for C2 amended at a concrete one-record state. -/
theorem C2_ids_unique_witness :
    (sampleFields.toItem 1).id <
      (FileCRUDBase.create [sampleFields.toItem 1] sampleFields).1.id :=
  (C2_ids_unique_amended [sampleFields.toItem 1] ⟨[]⟩ sampleFields).1
    (sampleFields.toItem 1) (List.mem_singleton.mpr rfl)

/-- C8: create followed by get on the returned id reads back exactly the
created record, from any prior file contents. -/
theorem C8_create_then_get (data : List BookItem) (f : BookFields) :
    FileCRUDBase.get (FileCRUDBase.create data f).2 (FileCRUDBase.create data f).1.id
      = some (FileCRUDBase.create data f).1 := by
  show ((data ++ [(FileCRUDBase.create data f).1]).find?
      (fun item => item.id == (FileCRUDBase.create data f).1.id)) = _
  rw [List.find?_append]
  have hnone : data.find? (fun item => item.id == (FileCRUDBase.create data f).1.id)
      = none := by
    rw [List.find?_eq_none]
    intro x hx
    simp only [beq_iff_eq]
    exact ne_of_lt (create_id_fresh data f x hx)
  rw [hnone]
  simp [List.find?]

/-- C9: pagination over both backends: at most limit records come back,
the i-th returned record is the record at position skip + i of the stored
order, and a skip at or beyond the record-set size yields the empty list;
the bin variant computes the same slice of its record array. -/
theorem C9_pagination (data : List BookItem) (doc : BinDoc) (skip limit : Nat)
    (_hlim : 0 < limit) :
    (FileCRUDBase.get_multi data skip limit).length ≤ limit ∧
    (∀ i, i < limit →
        (FileCRUDBase.get_multi data skip limit)[i]? = data[skip + i]?) ∧
    (data.length ≤ skip → FileCRUDBase.get_multi data skip limit = []) ∧
    JsonBinCRUDBase.get_multi doc skip limit
      = FileCRUDBase.get_multi doc.record skip limit := by
  refine ⟨List.length_take_le _ _, ?_, ?_, rfl⟩
  · intro i hi
    show ((data.drop skip).take limit)[i]? = _
    rw [List.getElem?_take_of_lt hi, List.getElem?_drop]
  · intro hskip
    show ((data.drop skip).take limit) = []
    rw [List.drop_eq_nil_of_le hskip, List.take_nil]

/- Helper lemmas for the update operation. -/

theorem update_found (data : List BookItem) (idv : Int) (u : BookUpdate)
    (item : BookItem) (h : FileCRUDBase.get data idv = some item) :
    (FileCRUDBase.update data idv u).1 = some (item.applyUpdate u) ∧
    FileCRUDBase.get (FileCRUDBase.update data idv u).2 idv
      = some (item.applyUpdate u) := by
  induction data with
  | nil => exact absurd h (by simp [FileCRUDBase.get])
  | cons x xs ih =>
    by_cases hx : x.id = idv
    · have hget : FileCRUDBase.get (x :: xs) idv = some x := by
        simp [FileCRUDBase.get, hx]
      rw [hget] at h
      have hxi : x = item := by injection h
      subst hxi
      have hup : FileCRUDBase.update (x :: xs) idv u
          = (some (x.applyUpdate u), x.applyUpdate u :: xs) := by
        simp [FileCRUDBase.update, hx]
      refine ⟨by rw [hup], ?_⟩
      rw [hup]
      have hid : (x.applyUpdate u).id = idv := by
        simp [BookItem.applyUpdate, hx]
      show FileCRUDBase.get (x.applyUpdate u :: xs) idv = some (x.applyUpdate u)
      simp [FileCRUDBase.get, hid]
    · have hget : FileCRUDBase.get (x :: xs) idv = FileCRUDBase.get xs idv := by
        simp [FileCRUDBase.get, hx]
      rw [hget] at h
      have ihres := ih h
      have hup : FileCRUDBase.update (x :: xs) idv u
          = ((FileCRUDBase.update xs idv u).1,
             x :: (FileCRUDBase.update xs idv u).2) := by
        simp [FileCRUDBase.update, hx]
      refine ⟨by rw [hup]; exact ihres.1, ?_⟩
      rw [hup]
      have hgx : FileCRUDBase.get (x :: (FileCRUDBase.update xs idv u).2) idv
          = FileCRUDBase.get (FileCRUDBase.update xs idv u).2 idv := by
        simp [FileCRUDBase.get, hx]
      rw [hgx]
      exact ihres.2

theorem update_not_found (data : List BookItem) (idv : Int) (u : BookUpdate)
    (h : FileCRUDBase.get data idv = none) :
    FileCRUDBase.update data idv u = (none, data) := by
  induction data with
  | nil => rfl
  | cons x xs ih =>
    by_cases hx : x.id = idv
    · have hget : FileCRUDBase.get (x :: xs) idv = some x := by
        simp [FileCRUDBase.get, hx]
      rw [hget] at h
      exact Option.noConfusion h
    · have hget : FileCRUDBase.get (x :: xs) idv = FileCRUDBase.get xs idv := by
        simp [FileCRUDBase.get, hx]
      rw [hget] at h
      have hrec := ih h
      show (if x.id = idv then _ else _) = _
      rw [if_neg hx]
      simp [hrec]

/-- The frame property of one merged update: every field the payload does
not set keeps its stored value. -/
def unsetPreserved (u : BookUpdate) (old new : BookItem) : Prop :=
  (u.title = none → new.title = old.title) ∧
  (u.author = none → new.author = old.author) ∧
  (u.year = none → new.year = old.year) ∧
  (u.genre = none → new.genre = old.genre) ∧
  (u.pages = none → new.pages = old.pages) ∧
  (u.available = none → new.available = old.available) ∧
  (u.cover_url = none → new.cover_url = old.cover_url) ∧
  (u.description = none → new.description = old.description) ∧
  (u.rating = none → new.rating = old.rating)

/-- The application property of one merged update: every field the
payload sets takes exactly the payload value. -/
def setApplied (u : BookUpdate) (new : BookItem) : Prop :=
  (∀ v, u.title = some v → new.title = v) ∧
  (∀ v, u.author = some v → new.author = v) ∧
  (∀ v, u.year = some v → new.year = v) ∧
  (∀ v, u.genre = some v → new.genre = v) ∧
  (∀ v, u.pages = some v → new.pages = v) ∧
  (∀ v, u.available = some v → new.available = v) ∧
  (∀ v, u.cover_url = some v → new.cover_url = v) ∧
  (∀ v, u.description = some v → new.description = v) ∧
  (∀ v, u.rating = some v → new.rating = v)

theorem applyUpdate_frame (u : BookUpdate) (old : BookItem) :
    unsetPreserved u old (old.applyUpdate u) ∧ setApplied u (old.applyUpdate u) := by
  unfold unsetPreserved setApplied
  constructor
  · refine ⟨?_, ?_, ?_, ?_, ?_, ?_, ?_, ?_, ?_⟩ <;>
      (intro h; simp [BookItem.applyUpdate, h])
  · refine ⟨?_, ?_, ?_, ?_, ?_, ?_, ?_, ?_, ?_⟩ <;>
      (intro v h; simp [BookItem.applyUpdate, h])

/-- C6: update applies exactly the set fields of the payload, keeps every
other field (id included) unchanged, returns the full resulting record,
and a following get reads back exactly that record; an absent id yields
not-found with the stored record set untouched; the bin variant performs
the same first-match update on its record array. -/
theorem C6_update_exact_fields (data : List BookItem) (idv : Int) (u : BookUpdate) :
    (∀ item, FileCRUDBase.get data idv = some item →
      (FileCRUDBase.update data idv u).1 = some (item.applyUpdate u) ∧
      FileCRUDBase.get (FileCRUDBase.update data idv u).2 idv
        = some (item.applyUpdate u) ∧
      (item.applyUpdate u).id = item.id ∧
      unsetPreserved u item (item.applyUpdate u) ∧
      setApplied u (item.applyUpdate u)) ∧
    (FileCRUDBase.get data idv = none →
      FileCRUDBase.update data idv u = (none, data)) ∧
    JsonBinCRUDBase.update ⟨data⟩ idv u
      = ((FileCRUDBase.update data idv u).1, ⟨(FileCRUDBase.update data idv u).2⟩) := by
  refine ⟨?_, ?_, rfl⟩
  · intro item h
    have hf := update_found data idv u item h
    exact ⟨hf.1, hf.2, rfl, (applyUpdate_frame u item).1, (applyUpdate_frame u item).2⟩
  · intro h
    exact update_not_found data idv u h

/-- Payload used by the C6 witness: sets the title and explicitly nulls
the rating, leaving every other field unset. -/
def c6Update : BookUpdate := { title := some (some "T2"), rating := some none }

/-- Witness for C6 at a concrete one-record state: the present id is
updated and read back, the absent id 99 leaves the data unchanged. -/
theorem C6_update_witness :
    (FileCRUDBase.update [sampleFields.toItem 1] 1 c6Update).1
      = some ((sampleFields.toItem 1).applyUpdate c6Update) ∧
    FileCRUDBase.update [sampleFields.toItem 1] 99 c6Update
      = (none, [sampleFields.toItem 1]) := by
  have h1 := C6_update_exact_fields [sampleFields.toItem 1] 1 c6Update
  have h99 := C6_update_exact_fields [sampleFields.toItem 1] 99 c6Update
  exact ⟨(h1.1 (sampleFields.toItem 1) (by decide)).1, h99.2.1 (by decide)⟩

/-- Witness for C9 at a concrete one-record state with skip 1, limit 2. -/
theorem C9_pagination_witness :
    (FileCRUDBase.get_multi [sampleFields.toItem 1] 1 2).length ≤ 2 ∧
    ((1 : Nat) ≤ 1 → FileCRUDBase.get_multi [sampleFields.toItem 1] 1 2 = []) := by
  have h := C9_pagination [sampleFields.toItem 1] ⟨[]⟩ 1 2 (by decide)
  exact ⟨h.1, h.2.2.1⟩

/- Concrete relational state and lookup clients used by witnesses and
counterexamples. -/

def st0 : RelationalState := ⟨1, []⟩

def errClient : String → String → ClientOutcome := fun _ _ => Except.error ()

def nfClient : String → String → ClientOutcome := fun _ _ => Except.ok none

/-- Caller fields carrying an explicit rating for the C1 counterexample. -/
def c1Fields : BookFields :=
  { title := "B", author := "A", year := 2000, genre := "G", pages := 10,
    rating := some 1 }

/-- External record carrying a rating, a cover and a publish year. -/
def c1Ext : OpenLibraryBookInfo :=
  { cover_url := some "theirs", rating := some 5, first_publish_year := some 1990 }

def c1Client : String → String → ClientOutcome := fun _ _ => Except.ok (some c1Ext)

/-- C1 counterexample: the enriched creation path
(create_with_external_data) never applies the external rating: with the
external record carrying rating 5, the created record keeps the caller
rating 1, refuting the claim that rating is overwritten by the external
value whenever present. -/
theorem C1_counterexample :
    (BookRepository.create_with_external_data c1Client st0 c1Fields true).1.map
        (fun r => r.rating) = Except.ok (some 1) ∧
    c1Ext.rating = some 5 ∧ some (1 : Rat) ≠ some (5 : Rat) := by
  refine ⟨rfl, rfl, by decide⟩

/-- C1 amended: in the enriched creation path the merge overwrites only
cover_url and description with the external values (when those are
present and non-empty), while year and rating always keep the caller
values; in the plain create path rating IS overwritten when the external
rating is non-None, and year still keeps the caller value because the
dumped dict always contains the key year. -/
theorem C1_merge_amended (client : String → String → ClientOutcome)
    (s : RelationalState) (f : BookFields) (info : OpenLibraryBookInfo)
    (hc : client f.title f.author = Except.ok (some info)) :
    (BookRepository.create_with_external_data client s f true).1.map
        (fun r => (r.cover_url, r.description, r.year, r.rating))
      = Except.ok
          ((if strTruthy info.cover_url then info.cover_url else f.cover_url),
           (if strTruthy info.description then info.description else f.description),
           some f.year, f.rating) ∧
    (BookRepository.create client s f).1.map (fun r => (r.rating, r.year))
      = Except.ok ((if info.rating.isSome then info.rating else f.rating),
          some f.year) := by
  constructor
  · by_cases h1 : strTruthy info.cover_url <;>
      by_cases h2 : strTruthy info.description <;>
        simp [BookRepository.create_with_external_data, hc, mergeExternal,
          model_dump, CreateData.toItem, Except.map, h1, h2]
  · by_cases h1 : strTruthy info.cover_url <;>
      by_cases h2 : strTruthy info.description <;>
        by_cases h3 : info.rating.isSome <;>
          simp [BookRepository.create, hc, mergeCreate, model_dump,
            CreateData.toItem, Except.map, h1, h2, h3]

/-- Caller fields of the concrete example in the spec: year 2000 and
cover_url mine. -/
def exampleFields : BookFields :=
  { title := "X", author := "A", year := 2000, genre := "G", pages := 10,
    cover_url := some "mine" }

/-- External record of the concrete example: first_publish_year 1990 and
cover_url theirs. -/
def exampleExt : OpenLibraryBookInfo :=
  { cover_url := some "theirs", first_publish_year := some 1990 }

def exampleClient : String → String → ClientOutcome :=
  fun _ _ => Except.ok (some exampleExt)

/-- Witness for C1 amended, which is exactly the concrete example of the
spec: the created record has year 2000 (caller wins) and cover_url theirs
(external wins). -/
theorem C1_merge_witness :
    (BookRepository.create_with_external_data exampleClient st0 exampleFields true).1.map
        (fun r => (r.cover_url, r.description, r.year, r.rating))
      = Except.ok (some "theirs", none, some 2000, none) := by
  have h := (C1_merge_amended exampleClient st0 exampleFields exampleExt rfl).1
  rw [h]
  rfl

/-- C5: with fetchExternal true, a lookup failure aborts the whole
creation with the state unchanged (no record persisted), while a
not-found lookup result makes the enriched creation agree exactly with
the plain fetchExternal-false creation. -/
theorem C5_enrichment_error_policy (client : String → String → ClientOutcome)
    (s : RelationalState) (f : BookFields) :
    (∀ e, client f.title f.author = Except.error e →
        BookRepository.create_with_external_data client s f true
          = (Except.error e, s)) ∧
    (client f.title f.author = Except.ok none →
        BookRepository.create_with_external_data client s f true
          = BookRepository.create_with_external_data client s f false) := by
  constructor
  · intro e he
    simp [BookRepository.create_with_external_data, he]
  · intro hn
    simp [BookRepository.create_with_external_data, hn, mergeExternal]

/-- Witness for C5: an erroring client aborts with the empty state kept,
and a not-found client makes the two fetchExternal modes coincide. -/
theorem C5_witness :
    BookRepository.create_with_external_data errClient st0 sampleFields true
      = (Except.error (), st0) ∧
    BookRepository.create_with_external_data nfClient st0 sampleFields true
      = BookRepository.create_with_external_data nfClient st0 sampleFields false :=
  ⟨(C5_enrichment_error_policy errClient st0 sampleFields).1 () rfl,
   (C5_enrichment_error_policy nfClient st0 sampleFields).2 rfl⟩

/-- C10: the plain relational create always consults the external lookup:
an exception from the lookup propagates with the transaction rolled back
(state unchanged, nothing persisted), and a returned enrichment record
changes the persisted result (here the cover_url) even though no
enrichment was requested by the caller. -/
theorem C10_plain_create_uses_lookup (client : String → String → ClientOutcome)
    (s : RelationalState) (f : BookFields) :
    (∀ e, client f.title f.author = Except.error e →
        BookRepository.create client s f = (Except.error e, s)) ∧
    (∀ info, client f.title f.author = Except.ok (some info) →
        strTruthy info.cover_url = true →
        (BookRepository.create client s f).1.map (fun r => r.cover_url)
          = Except.ok info.cover_url) := by
  constructor
  · intro e he
    simp [BookRepository.create, he]
  · intro info hi htr
    by_cases h2 : strTruthy info.description <;>
      by_cases h3 : info.rating.isSome <;>
        simp [BookRepository.create, hi, mergeCreate, model_dump,
          CreateData.toItem, Except.map, htr, h2, h3]

/-- Enrichment record with only a cover, for the C10 witness. -/
def c10Info : OpenLibraryBookInfo := { cover_url := some "C" }

def c10Client : String → String → ClientOutcome :=
  fun _ _ => Except.ok (some c10Info)

/-- Witness for C10: the erroring client leaves the empty state untouched
and the cover-bearing client changes the created cover_url. -/
theorem C10_witness :
    BookRepository.create errClient st0 sampleFields = (Except.error (), st0) ∧
    (BookRepository.create c10Client st0 sampleFields).1.map (fun r => r.cover_url)
      = Except.ok (some "C") :=
  ⟨(C10_plain_create_uses_lookup errClient st0 sampleFields).1 () rfl,
   (C10_plain_create_uses_lookup c10Client st0 sampleFields).2 c10Info rfl (by decide)⟩

/- The lookup client claims. -/

/-- First search doc carrying BOTH a publish year and a work key. -/
def c3Doc : SearchDoc := { first_publish_year := some 1990, key := some "/works/OL1W" }

/-- First search doc carrying only a work key. -/
def c3KeyDoc : SearchDoc := { key := some "/works/OL1W" }

/-- Work details carrying both a plain-string description and a ratings
average. -/
def c3Details : WorkDetails :=
  { description := some (DescriptionVal.plainStr "A story"),
    ratingAverage := some (some 4) }

/-- C3, evaluated at the failing input: when the first doc carries
first_publish_year together with the work key, the match statement stops
at its first case, the details request is never issued and description
and rating stay absent even though the details carry both; and even on a
key-only doc, _process_details extracts the description but then skips
the rating (again first-match-only), so the two are never both taken. -/
theorem C3_match_preempts_details :
    OpenLibraryClient.search "covers" (some ⟨[c3Doc]⟩) (some c3Details)
      = some { first_publish_year := some 1990 } ∧
    OpenLibraryClient.search "covers" (some ⟨[c3KeyDoc]⟩) (some c3Details)
      = some { description := some "A story" } :=
  ⟨rfl, rfl⟩

/-- C4 counterexample: a failed first request (the None that
BaseApiClient._make_request returns on any network or parse error)
produces exactly the same result value as a successful request with zero
results — both are None, so the caller cannot distinguish lookup failure
from not-found. -/
theorem C4_counterexample :
    OpenLibraryClient.search "covers" none none = none ∧
    OpenLibraryClient.search "covers" (some ⟨[]⟩) none = none :=
  ⟨rfl, rfl⟩

/-- C4 amended: network and parse failures are swallowed inside
_make_request, which returns None; a failure of the search request
therefore surfaces as the same None as the zero-results outcome, for any
outcome of the details request, and a failure of the details request
surfaces as a partial (here empty) enrichment record rather than as a
failure. -/
theorem C4_failure_conflated_amended (cb k : String) (d : Option WorkDetails) :
    OpenLibraryClient.search cb none d = none ∧
    OpenLibraryClient.search cb (some ⟨[{ key := some k }]⟩) none
      = some {} :=
  ⟨rfl, rfl⟩

end LibraryCatalog
